import Mathlib

/-
Verification of the nzgd_map correlation-parameterized extraction pipeline.

The development shallowly embeds:
  * src/app/query_sqlite_db.py : all_vs30s_given_correlations
    (correlation resolution, the staged CPT and SPT extraction queries,
    the SPT depth aggregation and left merge, the schema unification,
    and the derived-metric columns), and
  * src/nzgd_map/views.py : the /validate filter validator and the
    three-way Vs30 display logic of the index view.

Machine floating point is modelled by the type EF below: a finite value
(tracked exactly as a rational), the two infinities, and NaN.  Pandas
stores SQL NULL in a float column as NaN, so NaN doubles as null.  The
finite values produced by the natural logarithm are irrelevant to every
property proved here, so np.log is parameterized by a function
lg : Q -> Q standing for the logarithm on the positive finite inputs;
all theorems hold for every such lg.
-/

namespace Nzgd

/-- A value of a numpy/pandas float64 column: a finite value (modelled
exactly by a rational), positive or negative infinity, or NaN.  Pandas
represents SQL NULL in a float column as NaN, so NaN also plays the role
of null, and pandas isna is true exactly on NaN. -/
inductive EF where
  | fin : ℚ → EF
  | pinf : EF
  | ninf : EF
  | nan : EF
deriving DecidableEq, Repr

/-- pandas isna / np.isnan on a float column: true exactly on NaN
(infinities are not null). -/
def EF.isna : EF → Bool
  | .nan => true
  | _ => false

/-- IEEE-754 subtraction as performed by a pandas column subtraction:
NaN absorbs, infinities follow the usual rules, inf - inf = NaN. -/
def EF.sub : EF → EF → EF
  | .nan, _ => .nan
  | .fin _, .nan => .nan
  | .pinf, .nan => .nan
  | .ninf, .nan => .nan
  | .fin a, .fin b => .fin (a - b)
  | .fin _, .pinf => .ninf
  | .fin _, .ninf => .pinf
  | .pinf, .fin _ => .pinf
  | .pinf, .ninf => .pinf
  | .pinf, .pinf => .nan
  | .ninf, .fin _ => .ninf
  | .ninf, .pinf => .ninf
  | .ninf, .ninf => .nan

/-- IEEE-754 comparison a < b on float column values: NaN compares false
with everything. -/
def EF.lt : EF → EF → Bool
  | .fin a, .fin b => decide (a < b)
  | .fin _, .pinf => true
  | .ninf, .fin _ => true
  | .ninf, .pinf => true
  | _, _ => false

/-- IEEE-754 comparison a >= b on float column values: NaN compares false
with everything. -/
def EF.ge : EF → EF → Bool
  | .fin a, .fin b => decide (b ≤ a)
  | .pinf, .fin _ => true
  | .pinf, .ninf => true
  | .pinf, .pinf => true
  | .fin _, .ninf => true
  | .ninf, .ninf => true
  | _, _ => false

/-- np.log on a float column value.  lg stands for the mathematical
natural logarithm on positive finite inputs (its finite values never
matter to the properties below).  np.log(0) is -inf and np.log of a
negative value is NaN; both are emitted with a RuntimeWarning, never an
exception.  np.log(NaN) = NaN and np.log(inf) = inf. -/
def npLog (lg : ℚ → ℚ) : EF → EF
  | .fin x => if 0 < x then .fin (lg x) else if x = 0 then .ninf else .nan
  | .pinf => .pinf
  | .ninf => .nan
  | .nan => .nan

/-- Lines 131-133 / 206-208: vs30_residual = np.log(vs30) - np.log(model_vs30_foster_2019). -/
def vs30ResidualOf (lg : ℚ → ℚ) (v m : EF) : EF :=
  EF.sub (npLog lg v) (npLog lg m)

/-- Lines 134-136 / 209-211: gwl_residual = measured_gwl - model_gwl_westerhoff_2019. -/
def gwlResidualOf (g m : EF) : EF :=
  EF.sub g m

/-- One row of the nzgdrecord table (the columns read by the queries).
The type_prefix column is the field type_prefix_str. -/
structure NzgdRecord where
  nzgd_id : Int
  type_prefix_str : String
  original_reference : String
  investigation_date : String
  published_date : String
  latitude : EF
  longitude : EF
  model_vs30_foster_2019 : EF
  model_vs30_stddev_foster_2019 : EF
  model_gwl_westerhoff_2019 : EF
  region_id : Int
  district_id : Int
  suburb_id : Int
  city_id : Int
deriving DecidableEq, Repr

/-- One row of cptvs30estimates (the columns projected by the CPT CTEs). -/
structure CptVs30Estimate where
  cpt_id : Int
  nzgd_id : Int
  cpt_to_vs_correlation_id : Int
  vs_to_vs30_correlation_id : Int
  vs30 : EF
  vs30_stddev : EF
deriving DecidableEq, Repr

/-- One row of sptvs30estimates (the columns used by the SPT query). -/
structure SptVs30Estimate where
  spt_id : Int
  vs_to_vs30_correlation_id : Int
  spt_to_vs_correlation_id : Int
  hammer_type_id : Int
  vs30 : EF
  vs30_stddev : EF
deriving DecidableEq, Repr

/-- One row of cptreport (the columns read by the CPT query).  The
tip_net_area_ratio column is the field tip_net_area_ratio_v. -/
structure CptReport where
  cpt_id : Int
  nzgd_id : Int
  tip_net_area_ratio_v : EF
  measured_gwl : EF
  deepest_depth : EF
  shallowest_depth : EF
deriving DecidableEq, Repr

/-- One row of sptreport (the columns read by the SPT query). -/
structure SptReport where
  borehole_id : Int
  measured_gwl : EF
  efficiency : EF
  borehole_diameter : EF
deriving DecidableEq, Repr

/-- One row of a location lookup table (region, district, suburb, city):
an id and a name. -/
structure NameRow where
  id : Int
  name : String
deriving DecidableEq, Repr

/-- One row of sptmeasurements (the columns used by the depth aggregation). -/
structure SptMeasurement where
  borehole_id : Int
  depth : ℚ
deriving DecidableEq, Repr

/-- One row of a correlation catalog table (vstovs30correlation,
cpttovscorrelation, spttovscorrelation, spttovs30hammertype): a display
name and its integer id column. -/
structure CorrRow where
  name : String
  id : Int
deriving DecidableEq, Repr

/-- The SQLite database as read by all_vs30s_given_correlations. -/
structure DB where
  vstovs30correlation : List CorrRow
  cpttovscorrelation : List CorrRow
  spttovscorrelation : List CorrRow
  spttovs30hammertype : List CorrRow
  cptvs30estimates : List CptVs30Estimate
  sptvs30estimates : List SptVs30Estimate
  nzgdrecord : List NzgdRecord
  region : List NameRow
  district : List NameRow
  suburb : List NameRow
  city : List NameRow
  cptreport : List CptReport
  sptreport : List SptReport
  sptmeasurements : List SptMeasurement
deriving Repr

/-- Lines 52-71: catalog_df[catalog_df["name"] == selected]["...id"].values[0].
An absent name leaves the filtered frame empty and values[0] raises
IndexError; a present name yields the first matching id, cast by int(). -/
def resolveId (catalog : List CorrRow) (nm : String) : Except String Int :=
  match catalog.filter (fun r => r.name == nm) with
  | [] => Except.error "IndexError"
  | r :: _ => Except.ok r.id

/-- CPT CTE filtered_data (line 85-88): WHERE vs_to_vs30_correlation_id = value. -/
def cptFirstFilter (ests : List CptVs30Estimate) (vsid : Int) : List CptVs30Estimate :=
  ests.filter (fun e => e.vs_to_vs30_correlation_id == vsid)

/-- CPT CTE second_filter (line 89-93): WHERE cpt_to_vs_correlation_id = value,
applied to the output of filtered_data. -/
def cptSecondFilter (ests : List CptVs30Estimate) (cptid : Int) : List CptVs30Estimate :=
  ests.filter (fun e => e.cpt_to_vs_correlation_id == cptid)

/-- One row of the CPT SQL query result (the SELECT list of lines 94-103). -/
structure CptQueryRow where
  cpt_id : Int
  nzgd_id : Int
  vs30 : EF
  vs30_stddev : EF
  type_prefix_str : String
  original_reference : String
  investigation_date : String
  published_date : String
  latitude : EF
  longitude : EF
  model_vs30_foster_2019 : EF
  model_vs30_stddev_foster_2019 : EF
  model_gwl_westerhoff_2019 : EF
  tip_net_area_ratio_v : EF
  measured_gwl : EF
  deepest_depth : EF
  shallowest_depth : EF
  region_name : String
  district_name : String
  suburb_name : String
  city_name : String
deriving DecidableEq, Repr

/-- The inner joins of the CPT query (lines 104-116): second_filter JOIN
nzgdrecord JOIN region JOIN district JOIN suburb JOIN city JOIN cptreport,
in source order. -/
def cptJoin (db : DB) (sf : List CptVs30Estimate) : List CptQueryRow :=
  sf.flatMap fun e =>
    (db.nzgdrecord.filter (fun n => n.nzgd_id == e.nzgd_id)).flatMap fun n =>
      (db.region.filter (fun r => r.id == n.region_id)).flatMap fun r =>
        (db.district.filter (fun d => d.id == n.district_id)).flatMap fun d =>
          (db.suburb.filter (fun sb => sb.id == n.suburb_id)).flatMap fun sb =>
            (db.city.filter (fun ct => ct.id == n.city_id)).flatMap fun ct =>
              (db.cptreport.filter (fun cr => cr.cpt_id == e.cpt_id)).map fun cr =>
                { cpt_id := e.cpt_id
                  nzgd_id := e.nzgd_id
                  vs30 := e.vs30
                  vs30_stddev := e.vs30_stddev
                  type_prefix_str := n.type_prefix_str
                  original_reference := n.original_reference
                  investigation_date := n.investigation_date
                  published_date := n.published_date
                  latitude := n.latitude
                  longitude := n.longitude
                  model_vs30_foster_2019 := n.model_vs30_foster_2019
                  model_vs30_stddev_foster_2019 := n.model_vs30_stddev_foster_2019
                  model_gwl_westerhoff_2019 := n.model_gwl_westerhoff_2019
                  tip_net_area_ratio_v := cr.tip_net_area_ratio_v
                  measured_gwl := cr.measured_gwl
                  deepest_depth := cr.deepest_depth
                  shallowest_depth := cr.shallowest_depth
                  region_name := r.name
                  district_name := d.name
                  suburb_name := sb.name
                  city_name := ct.name }

/-- A row of cpt_database_df after the added columns of lines 126-136. -/
structure CptDfRow extends CptQueryRow where
  record_name : String
  vs30_residual : EF
  gwl_residual : EF
deriving DecidableEq, Repr

/-- Lines 126-136: cpt record_name = type_prefix + "_" + str(nzgd_id),
vs30_residual = log(vs30) - log(model_vs30_foster_2019),
gwl_residual = measured_gwl - model_gwl_westerhoff_2019. -/
def cptAddDerived (lg : ℚ → ℚ) (rows : List CptQueryRow) : List CptDfRow :=
  rows.map fun r =>
    { toCptQueryRow := r
      record_name := r.type_prefix_str ++ "_" ++ toString r.nzgd_id
      vs30_residual := vs30ResidualOf lg r.vs30 r.model_vs30_foster_2019
      gwl_residual := gwlResidualOf r.measured_gwl r.model_gwl_westerhoff_2019 }

/-- cpt_database_df: the staged CPT query followed by the derived columns. -/
def cptDf (lg : ℚ → ℚ) (db : DB) (vsid cptid : Int) : List CptDfRow :=
  cptAddDerived lg (cptJoin db (cptSecondFilter (cptFirstFilter db.cptvs30estimates vsid) cptid))

/-- SPT CTE filtered_data (lines 141-144): WHERE vs_to_vs30_correlation_id = value. -/
def sptFirstFilter (ests : List SptVs30Estimate) (vsid : Int) : List SptVs30Estimate :=
  ests.filter (fun e => e.vs_to_vs30_correlation_id == vsid)

/-- SPT CTE second_filter (lines 145-148): WHERE spt_to_vs_correlation_id = value. -/
def sptSecondFilter (ests : List SptVs30Estimate) (sptid : Int) : List SptVs30Estimate :=
  ests.filter (fun e => e.spt_to_vs_correlation_id == sptid)

/-- SPT CTE third_filter (lines 149-152): WHERE hammer_type_id = value. -/
def sptThirdFilter (ests : List SptVs30Estimate) (hid : Int) : List SptVs30Estimate :=
  ests.filter (fun e => e.hammer_type_id == hid)

/-- One row of the SPT SQL query result (the SELECT list of lines 154-162). -/
structure SptQueryRow where
  spt_id : Int
  vs30 : EF
  vs30_stddev : EF
  type_prefix_str : String
  original_reference : String
  investigation_date : String
  published_date : String
  latitude : EF
  longitude : EF
  model_vs30_foster_2019 : EF
  model_vs30_stddev_foster_2019 : EF
  model_gwl_westerhoff_2019 : EF
  measured_gwl : EF
  efficiency : EF
  borehole_diameter : EF
  region_name : String
  district_name : String
  suburb_name : String
  city_name : String
deriving DecidableEq, Repr

/-- The inner joins of the SPT query (lines 163-175): third_filter JOIN
nzgdrecord ON spt_id = nzgd_id, JOIN sptreport ON spt_id = borehole_id,
then the four location joins, in source order. -/
def sptJoin (db : DB) (tf : List SptVs30Estimate) : List SptQueryRow :=
  tf.flatMap fun e =>
    (db.nzgdrecord.filter (fun n => n.nzgd_id == e.spt_id)).flatMap fun n =>
      (db.sptreport.filter (fun sr => sr.borehole_id == e.spt_id)).flatMap fun sr =>
        (db.region.filter (fun r => r.id == n.region_id)).flatMap fun r =>
          (db.district.filter (fun d => d.id == n.district_id)).flatMap fun d =>
            (db.suburb.filter (fun sb => sb.id == n.suburb_id)).flatMap fun sb =>
              (db.city.filter (fun ct => ct.id == n.city_id)).map fun ct =>
                { spt_id := e.spt_id
                  vs30 := e.vs30
                  vs30_stddev := e.vs30_stddev
                  type_prefix_str := n.type_prefix_str
                  original_reference := n.original_reference
                  investigation_date := n.investigation_date
                  published_date := n.published_date
                  latitude := n.latitude
                  longitude := n.longitude
                  model_vs30_foster_2019 := n.model_vs30_foster_2019
                  model_vs30_stddev_foster_2019 := n.model_vs30_stddev_foster_2019
                  model_gwl_westerhoff_2019 := n.model_gwl_westerhoff_2019
                  measured_gwl := sr.measured_gwl
                  efficiency := sr.efficiency
                  borehole_diameter := sr.borehole_diameter
                  region_name := r.name
                  district_name := d.name
                  suburb_name := sb.name
                  city_name := ct.name }

/-- One row of depth_stats_df: per-borehole depth extent. -/
structure DepthStat where
  borehole_id : Int
  shallowest_depth : ℚ
  deepest_depth : ℚ
deriving DecidableEq, Repr

/-- The depth column of the measurements of borehole b. -/
def depthsOfB (ms : List SptMeasurement) (b : Int) : List ℚ :=
  (ms.filter (fun m => m.borehole_id == b)).map (fun m => m.depth)

/-- The aggregation for one groupby key: min and max of the depths of the
measurements of borehole b, none when the group is empty (groupby never
emits a key with no rows, so none is unreachable from depthStats). -/
def statFor (ms : List SptMeasurement) (b : Int) : Option DepthStat :=
  match depthsOfB ms b with
  | [] => none
  | d :: ds => some { borehole_id := b, shallowest_depth := ds.foldl min d, deepest_depth := ds.foldl max d }

/-- Lines 186-190: sptmeasurements grouped by borehole_id with
shallowest_depth = min(depth) and deepest_depth = max(depth).  pandas
groupby sorts the group keys; the key order is immaterial to the left
merge below (whose output follows the left frame), so the embedding
enumerates the distinct keys with dedup instead. -/
def depthStats (ms : List SptMeasurement) : List DepthStat :=
  ((ms.map (fun m => m.borehole_id)).dedup).filterMap (statFor ms)

/-- A row of spt_database_df after the merge of lines 192-199: the query
columns plus the depth extent columns (the merge key borehole_id is
dropped on line 199).  A borehole with no measurement rows gets NaN in
both depth columns. -/
structure SptMergedRow extends SptQueryRow where
  shallowest_depth : EF
  deepest_depth : EF
deriving DecidableEq, Repr

/-- Lines 192-199: pd.merge(spt_partial, depth_stats, left_on=spt_id,
right_on=borehole_id, how=left).  Every left row is kept; with no
matching stat the added columns are NaN, with matching stats one output
row per match (depthStats keys are distinct, so exactly one). -/
def leftMergeDepth (rows : List SptQueryRow) (stats : List DepthStat) : List SptMergedRow :=
  rows.flatMap fun r =>
    match stats.filter (fun s => s.borehole_id == r.spt_id) with
    | [] => [{ toSptQueryRow := r, shallowest_depth := EF.nan, deepest_depth := EF.nan }]
    | s :: ss => (s :: ss).map fun st =>
      { toSptQueryRow := r
        shallowest_depth := EF.fin st.shallowest_depth
        deepest_depth := EF.fin st.deepest_depth }

/-- A row of spt_database_df after the rename and added columns of lines
202-211: spt_id is renamed to nzgd_id and record_name, vs30_residual and
gwl_residual are appended. -/
structure SptDfRow where
  nzgd_id : Int
  vs30 : EF
  vs30_stddev : EF
  type_prefix_str : String
  original_reference : String
  investigation_date : String
  published_date : String
  latitude : EF
  longitude : EF
  model_vs30_foster_2019 : EF
  model_vs30_stddev_foster_2019 : EF
  model_gwl_westerhoff_2019 : EF
  measured_gwl : EF
  efficiency : EF
  borehole_diameter : EF
  region_name : String
  district_name : String
  suburb_name : String
  city_name : String
  shallowest_depth : EF
  deepest_depth : EF
  record_name : String
  vs30_residual : EF
  gwl_residual : EF
deriving DecidableEq, Repr

/-- Lines 202-211.  Note the source of line 203-205 concatenates
type_prefix and str(nzgd_id) directly, without the "_" separator used on
the CPT side (line 126-130). -/
def sptAddDerived (lg : ℚ → ℚ) (rows : List SptMergedRow) : List SptDfRow :=
  rows.map fun r =>
    { nzgd_id := r.spt_id
      vs30 := r.vs30
      vs30_stddev := r.vs30_stddev
      type_prefix_str := r.type_prefix_str
      original_reference := r.original_reference
      investigation_date := r.investigation_date
      published_date := r.published_date
      latitude := r.latitude
      longitude := r.longitude
      model_vs30_foster_2019 := r.model_vs30_foster_2019
      model_vs30_stddev_foster_2019 := r.model_vs30_stddev_foster_2019
      model_gwl_westerhoff_2019 := r.model_gwl_westerhoff_2019
      measured_gwl := r.measured_gwl
      efficiency := r.efficiency
      borehole_diameter := r.borehole_diameter
      region_name := r.region_name
      district_name := r.district_name
      suburb_name := r.suburb_name
      city_name := r.city_name
      shallowest_depth := r.shallowest_depth
      deepest_depth := r.deepest_depth
      record_name := r.type_prefix_str ++ toString r.spt_id
      vs30_residual := vs30ResidualOf lg r.vs30 r.model_vs30_foster_2019
      gwl_residual := gwlResidualOf r.measured_gwl r.model_gwl_westerhoff_2019 }

/-- spt_database_df: the staged SPT query, the depth-stat left merge and
the derived columns. -/
def sptDf (lg : ℚ → ℚ) (db : DB) (vsid sptid hid : Int) : List SptDfRow :=
  sptAddDerived lg
    (leftMergeDepth
      (sptJoin db (sptThirdFilter (sptSecondFilter (sptFirstFilter db.sptvs30estimates vsid) sptid) hid))
      (depthStats db.sptmeasurements))

/-- A row of the unified output table database_df, with the final column
names of the rename of lines 225-236 (cpt_tip_net_area_ratio is the
field cpt_tip_net_area_ratio_v, type_prefix is type_prefix_str).
Columns that exist on only one side of the concat (cpt_id and
cpt_tip_net_area_ratio on the CPT side, spt_efficiency and
spt_borehole_diameter on the SPT side) are NaN on rows of the other
type; cpt_id thereby becomes a float column. -/
structure UnifiedRow where
  cpt_id : EF
  nzgd_id : Int
  vs30 : EF
  vs30_stddev : EF
  type_prefix_str : String
  original_reference : String
  investigation_date : String
  published_date : String
  latitude : EF
  longitude : EF
  model_vs30_foster_2019 : EF
  model_vs30_stddev_foster_2019 : EF
  model_gwl_westerhoff_2019 : EF
  cpt_tip_net_area_ratio_v : EF
  measured_gwl : EF
  deepest_depth : EF
  shallowest_depth : EF
  region : String
  district : String
  suburb : String
  city : String
  record_name : String
  vs30_residual : EF
  gwl_residual : EF
  spt_efficiency : EF
  spt_borehole_diameter : EF
  type_number_code : EF
deriving DecidableEq, Repr

/-- Line 219-221: database_df["type_prefix"].map({CPT: 0, SCPT: 1, BH: 2}).
Series.map with a dict yields NaN for any key absent from the dict. -/
def typeNumberCode (p : String) : EF :=
  if p == "CPT" then EF.fin 0
  else if p == "SCPT" then EF.fin 1
  else if p == "BH" then EF.fin 2
  else EF.nan

/-- The CPT half of the concat of line 218: SPT-only columns become NaN.
The type_number_code column does not exist yet (line 219 adds it to the
combined frame); it is initialized to NaN here and overwritten in unify. -/
def fromCpt (r : CptDfRow) : UnifiedRow :=
  { cpt_id := EF.fin (r.cpt_id : ℚ)
    nzgd_id := r.nzgd_id
    vs30 := r.vs30
    vs30_stddev := r.vs30_stddev
    type_prefix_str := r.type_prefix_str
    original_reference := r.original_reference
    investigation_date := r.investigation_date
    published_date := r.published_date
    latitude := r.latitude
    longitude := r.longitude
    model_vs30_foster_2019 := r.model_vs30_foster_2019
    model_vs30_stddev_foster_2019 := r.model_vs30_stddev_foster_2019
    model_gwl_westerhoff_2019 := r.model_gwl_westerhoff_2019
    cpt_tip_net_area_ratio_v := r.tip_net_area_ratio_v
    measured_gwl := r.measured_gwl
    deepest_depth := r.deepest_depth
    shallowest_depth := r.shallowest_depth
    region := r.region_name
    district := r.district_name
    suburb := r.suburb_name
    city := r.city_name
    record_name := r.record_name
    vs30_residual := r.vs30_residual
    gwl_residual := r.gwl_residual
    spt_efficiency := EF.nan
    spt_borehole_diameter := EF.nan
    type_number_code := EF.nan }

/-- The SPT half of the concat of line 218: CPT-only columns become NaN. -/
def fromSpt (r : SptDfRow) : UnifiedRow :=
  { cpt_id := EF.nan
    nzgd_id := r.nzgd_id
    vs30 := r.vs30
    vs30_stddev := r.vs30_stddev
    type_prefix_str := r.type_prefix_str
    original_reference := r.original_reference
    investigation_date := r.investigation_date
    published_date := r.published_date
    latitude := r.latitude
    longitude := r.longitude
    model_vs30_foster_2019 := r.model_vs30_foster_2019
    model_vs30_stddev_foster_2019 := r.model_vs30_stddev_foster_2019
    model_gwl_westerhoff_2019 := r.model_gwl_westerhoff_2019
    cpt_tip_net_area_ratio_v := EF.nan
    measured_gwl := r.measured_gwl
    deepest_depth := r.deepest_depth
    shallowest_depth := r.shallowest_depth
    region := r.region_name
    district := r.district_name
    suburb := r.suburb_name
    city := r.city_name
    record_name := r.record_name
    vs30_residual := r.vs30_residual
    gwl_residual := r.gwl_residual
    spt_efficiency := r.efficiency
    spt_borehole_diameter := r.borehole_diameter
    type_number_code := EF.nan }

/-- Line 219-221: the assignment of the type_number_code column of one
combined row from its type_prefix. -/
def setCode (u : UnifiedRow) : UnifiedRow :=
  { u with type_number_code := typeNumberCode u.type_prefix_str }

/-- Lines 216-236: pd.concat([cpt_database_df, spt_database_df]) followed
by the type_number_code assignment and the final renames (the renames are
reflected in the UnifiedRow field names). -/
def unify (cptRows : List CptDfRow) (sptRows : List SptDfRow) : List UnifiedRow :=
  (cptRows.map fromCpt ++ sptRows.map fromSpt).map setCode

/-- all_vs30s_given_correlations (lines 12-238): resolve the four
correlation names (lines 41-71), run the staged CPT and SPT extractions,
aggregate depths, unify the schemas and add the derived columns.  A name
absent from its catalog raises IndexError before either extraction query
is built, embedded as the error branch of the match. -/
def all_vs30s_given_correlations (lg : ℚ → ℚ) (db : DB)
    (selected_vs30_correlation selected_cpt_to_vs_correlation
     selected_spt_to_vs_correlation selected_hammer_type : String) :
    Except String (List UnifiedRow) :=
  match resolveId db.vstovs30correlation selected_vs30_correlation with
  | Except.error e => Except.error e
  | Except.ok vsid =>
    match resolveId db.cpttovscorrelation selected_cpt_to_vs_correlation with
    | Except.error e => Except.error e
    | Except.ok cptid =>
      match resolveId db.spttovscorrelation selected_spt_to_vs_correlation with
      | Except.error e => Except.error e
      | Except.ok sptid =>
        match resolveId db.spttovs30hammertype selected_hammer_type with
        | Except.error e => Except.error e
        | Except.ok hid =>
          Except.ok (unify (cptDf lg db vsid cptid) (sptDf lg db vsid sptid hid))

/-- The column names of the CPT SQL result, in SELECT-list order
(lines 94-103). -/
def cptSelectCols : List String :=
  ["cpt_id", "nzgd_id", "vs30", "vs30_stddev", "type_prefix",
   "original_reference", "investigation_date", "published_date",
   "latitude", "longitude", "model_vs30_foster_2019",
   "model_vs30_stddev_foster_2019", "model_gwl_westerhoff_2019",
   "tip_net_area_ratio", "measured_gwl", "deepest_depth", "shallowest_depth",
   "region_name", "district_name", "suburb_name", "city_name"]

/-- The columns of cpt_database_df after lines 126-136 append the three
derived columns. -/
def cptDfCols : List String :=
  cptSelectCols ++ ["record_name", "vs30_residual", "gwl_residual"]

/-- The column names of the SPT SQL result, in SELECT-list order
(lines 154-162). -/
def sptSelectCols : List String :=
  ["spt_id", "vs30", "vs30_stddev", "type_prefix", "original_reference",
   "investigation_date", "published_date", "latitude", "longitude",
   "model_vs30_foster_2019", "model_vs30_stddev_foster_2019",
   "model_gwl_westerhoff_2019", "measured_gwl", "efficiency",
   "borehole_diameter", "region_name", "district_name", "suburb_name",
   "city_name"]

/-- Line 202: the rename spt_id -> nzgd_id. -/
def renameSptId (c : String) : String :=
  if c == "spt_id" then "nzgd_id" else c

/-- The columns of spt_database_df: the merge of lines 192-199 appends
shallowest_depth and deepest_depth and drops the merge key borehole_id,
line 202 renames spt_id to nzgd_id, and lines 203-211 append the three
derived columns. -/
def sptDfCols : List String :=
  ((sptSelectCols ++ ["shallowest_depth", "deepest_depth"]).map renameSptId)
    ++ ["record_name", "vs30_residual", "gwl_residual"]

/-- Column alignment of pd.concat (line 218): the first frame's columns
in order, then the second frame's columns not already present, in order. -/
def colUnion (xs ys : List String) : List String :=
  xs ++ ys.filter (fun c => !(xs.contains c))

/-- The columns of database_df right after the concat of line 218. -/
def concatCols : List String :=
  colUnion cptDfCols sptDfCols

/-- The column rename of lines 225-236. -/
def finalRename (c : String) : String :=
  if c == "tip_net_area_ratio" then "cpt_tip_net_area_ratio"
  else if c == "region_name" then "region"
  else if c == "district_name" then "district"
  else if c == "suburb_name" then "suburb"
  else if c == "city_name" then "city"
  else if c == "efficiency" then "spt_efficiency"
  else if c == "borehole_diameter" then "spt_borehole_diameter"
  else c

/-- The columns of the unified output table of
all_vs30s_given_correlations: the concat columns, the type_number_code
column added on line 219, and the renames of lines 225-236. -/
def unifiedCols : List String :=
  (concatCols ++ ["type_number_code"]).map finalRename

/-- The column names of the empty frame that the /validate view of
src/nzgd_map/views.py evaluates user expressions against (lines 634-663),
copied verbatim in source order. -/
def validatorCols : List String :=
  ["cpt_id", "nzgd_id", "vs30", "vs30_stddev", "type_prefix",
   "original_reference", "investigation_date", "published_date",
   "latitude", "longitude", "model_vs30_foster_2019",
   "model_vs30_stddev_foster_2019", "model_gwl_westerhoff_2019",
   "cpt_tip_net_area_ratio", "measured_gwl", "deepest_depth",
   "shallowest_depth", "region", "district", "suburb", "city",
   "record_name", "vs30_log_residual", "gwl_residual", "efficiency",
   "borehole_diameter"]

/-
The Vs30 display logic of the index view (src/nzgd_map/views.py,
lines 110-136).
-/

/-- The content of one cell of the "Vs30 (m/s)" display column.  The
source initializes the column to the float vs30 and then overwrites
matching rows with sentinel strings or with the f-string rendering
f"\x7bx:.2f\x7d" of the float; a cell therefore holds either a literal
sentinel text, a 2-decimal rendering of a value (fmtVal), or the
untouched original float (raw). -/
inductive Cell where
  | text : String → Cell
  | fmtVal : EF → Cell
  | raw : EF → Cell
deriving DecidableEq, Repr

/-- Lines 112-117: the minimum required depth is 5 m for the boore_2011
velocity-to-Vs30 correlation and 10 m for any other selection. -/
def minRequiredDepth (vs30corr : String) : ℚ :=
  if vs30corr == "boore_2011" then 5 else 10

/-- Lines 112-117: the insufficient-depth explanation string. -/
def reasonText (vs30corr : String) : String :=
  if vs30corr == "boore_2011" then
    "Unable to estimate as Boore et al. (2011) Vs to Vs30 correlation requires a depth of at least 5 m"
  else
    "Unable to estimate as Boore et al. (2004) Vs to Vs30 correlation requires a depth of at least 10 m"

/-- Line 121-125: the computation-failed sentinel string. -/
def failedText : String :=
  "Vs30 calculation failed even though CPT depth is sufficient"

/-- Lines 110-130: the "Vs30 (m/s)" cell of one record.  The three masked
assignments of the source are disjoint, so they are rendered as an
if-chain; a row matching none of the masks (possible exactly when
deepest_depth is NaN, since the three masks cover every non-NaN depth)
keeps the initial float copy of vs30. -/
def displayVs30 (vs30corr : String) (deepest vs30 : EF) : Cell :=
  if EF.lt deepest (EF.fin (minRequiredDepth vs30corr)) then
    Cell.text (reasonText vs30corr)
  else if EF.ge deepest (EF.fin (minRequiredDepth vs30corr))
      && (EF.isna vs30 || vs30 == EF.fin 0) then
    Cell.text failedText
  else if EF.ge deepest (EF.fin (minRequiredDepth vs30corr))
      && !(EF.isna vs30 || vs30 == EF.fin 0) then
    Cell.fmtVal vs30
  else
    Cell.raw vs30

/-- The three-way availability state asserted by the spec: the
insufficient-depth sentinel, the computation-failed sentinel, or an
available formatted value. -/
def isThreeWayState (vs30corr : String) (c : Cell) : Prop :=
  c = Cell.text (reasonText vs30corr) ∨ c = Cell.text failedText ∨ ∃ v, c = Cell.fmtVal v

/-
The /validate filter validator (src/nzgd_map/views.py, lines 624-673).
The view calls pandas DataFrame.query on a zero-row frame carrying only
the expected column names; the model below embeds the fragment of the
pandas computation-expression engine that the verified scenarios
exercise: tokenization and parsing of comparison/boolean expressions
(failures raise SyntaxError), the pandas rejection of assignment with
ValueError and of lambda expressions with NotImplementedError, and
column-name resolution (an unknown name raises
pandas.errors.UndefinedVariableError).  Evaluating a well-formed,
fully-resolved comparison on a zero-row frame succeeds and returns an
empty frame, so evaluation itself never fails in the model.
-/

/-- The Python exception kinds relevant to the validator. -/
inductive PyExc where
  | valErr : PyExc
  | synErr : PyExc
  | unboundLocalErr : PyExc
  | undefVar : String → PyExc
  | notImplErr : PyExc
deriving DecidableEq, Repr

/-- Tokens of the query-expression fragment. -/
inductive Tok where
  | ident : String → Tok
  | num : ℚ → Tok
  | ltT : Tok
  | leT : Tok
  | gtT : Tok
  | geT : Tok
  | eqT : Tok
  | neT : Tok
  | andT : Tok
  | orT : Tok
  | lparen : Tok
  | rparen : Tok
  | colon : Tok
  | assign : Tok
deriving DecidableEq, Repr

/-- Characters that may start or continue an identifier. -/
def isIdentChar (c : Char) : Bool :=
  c.isAlpha || c.isDigit || c == '_'

/-- Reads a digit run as a natural number. -/
def digitsToNat (ds : List Char) : Nat :=
  ds.foldl (fun a c => a * 10 + (c.toNat - 48)) 0

/-- The tokenizer, with fuel bounded by the input length.  A character
outside the fragment raises SyntaxError, as the Python tokenizer or
ast.parse would. -/
def tokenizeAux : Nat → List Char → Except PyExc (List Tok)
  | 0, _ => Except.error PyExc.synErr
  | _, [] => Except.ok []
  | Nat.succ fu, c :: cs =>
    if c == ' ' then tokenizeAux fu cs
    else if c.isAlpha || c == '_' then
      let w := (c :: cs).takeWhile isIdentChar
      let rest := (c :: cs).dropWhile isIdentChar
      (tokenizeAux fu rest).map (fun ts => Tok.ident (String.mk w) :: ts)
    else if c.isDigit then
      let w := (c :: cs).takeWhile Char.isDigit
      let rest := (c :: cs).dropWhile Char.isDigit
      match rest with
      | '.' :: r2 =>
        let f := r2.takeWhile Char.isDigit
        let r3 := r2.dropWhile Char.isDigit
        (tokenizeAux fu r3).map (fun ts =>
          Tok.num ((digitsToNat w : ℚ) + (digitsToNat f : ℚ) / ((10 : ℚ) ^ f.length)) :: ts)
      | _ =>
        (tokenizeAux fu rest).map (fun ts => Tok.num (digitsToNat w : ℚ) :: ts)
    else if c == '>' then
      match cs with
      | '=' :: r => (tokenizeAux fu r).map (fun ts => Tok.geT :: ts)
      | _ => (tokenizeAux fu cs).map (fun ts => Tok.gtT :: ts)
    else if c == '<' then
      match cs with
      | '=' :: r => (tokenizeAux fu r).map (fun ts => Tok.leT :: ts)
      | _ => (tokenizeAux fu cs).map (fun ts => Tok.ltT :: ts)
    else if c == '=' then
      match cs with
      | '=' :: r => (tokenizeAux fu r).map (fun ts => Tok.eqT :: ts)
      | _ => (tokenizeAux fu cs).map (fun ts => Tok.assign :: ts)
    else if c == '!' then
      match cs with
      | '=' :: r => (tokenizeAux fu r).map (fun ts => Tok.neT :: ts)
      | _ => Except.error PyExc.synErr
    else if c == '&' then (tokenizeAux fu cs).map (fun ts => Tok.andT :: ts)
    else if c == '|' then (tokenizeAux fu cs).map (fun ts => Tok.orT :: ts)
    else if c == '(' then (tokenizeAux fu cs).map (fun ts => Tok.lparen :: ts)
    else if c == ')' then (tokenizeAux fu cs).map (fun ts => Tok.rparen :: ts)
    else if c == ':' then (tokenizeAux fu cs).map (fun ts => Tok.colon :: ts)
    else Except.error PyExc.synErr

/-- Tokenizes a query string. -/
def tokenize (s : String) : Except PyExc (List Tok) :=
  tokenizeAux (s.length + 1) s.toList

/-- The abstract syntax of the query fragment. -/
inductive QExpr where
  | col : String → QExpr
  | lit : ℚ → QExpr
  | cmp : QExpr → Tok → QExpr → QExpr
  | bAnd : QExpr → QExpr → QExpr
  | bOr : QExpr → QExpr → QExpr
deriving DecidableEq, Repr

/-- Is the token a comparison operator. -/
def isCmpTok : Tok → Bool
  | Tok.ltT => true
  | Tok.leT => true
  | Tok.gtT => true
  | Tok.geT => true
  | Tok.eqT => true
  | Tok.neT => true
  | _ => false

mutual

/-- Parses an operand: an identifier, a numeric literal, or a
parenthesized expression. -/
def parseOperand : Nat → List Tok → Except PyExc (QExpr × List Tok)
  | 0, _ => Except.error PyExc.synErr
  | _, Tok.ident w :: rest => Except.ok (QExpr.col w, rest)
  | _, Tok.num q :: rest => Except.ok (QExpr.lit q, rest)
  | Nat.succ fu, Tok.lparen :: rest =>
    match parseBool fu rest with
    | Except.error e => Except.error e
    | Except.ok (x, Tok.rparen :: r2) => Except.ok (x, r2)
    | Except.ok _ => Except.error PyExc.synErr
  | _, _ => Except.error PyExc.synErr

/-- Parses an optional comparison: operand (cmpop operand)?.  A dangling
comparison operator with no right operand is a SyntaxError (ast.parse
fails on it). -/
def parseCmp : Nat → List Tok → Except PyExc (QExpr × List Tok)
  | 0, _ => Except.error PyExc.synErr
  | Nat.succ fu, ts =>
    match parseOperand fu ts with
    | Except.error e => Except.error e
    | Except.ok (x, rest) =>
      match rest with
      | op :: r2 =>
        if isCmpTok op then
          match parseOperand fu r2 with
          | Except.error e => Except.error e
          | Except.ok (y, r3) => Except.ok (QExpr.cmp x op y, r3)
        else Except.ok (x, rest)
      | [] => Except.ok (x, rest)

/-- Parses chains of comparisons joined by the boolean connectives,
left-associated. -/
def parseBool : Nat → List Tok → Except PyExc (QExpr × List Tok)
  | 0, _ => Except.error PyExc.synErr
  | Nat.succ fu, ts =>
    match parseCmp fu ts with
    | Except.error e => Except.error e
    | Except.ok (x, rest) => parseBoolRest fu x rest

/-- Folds the remaining & / | connectives. -/
def parseBoolRest : Nat → QExpr → List Tok → Except PyExc (QExpr × List Tok)
  | 0, _, _ => Except.error PyExc.synErr
  | Nat.succ fu, x, Tok.andT :: rest =>
    match parseCmp fu rest with
    | Except.error e => Except.error e
    | Except.ok (y, r2) => parseBoolRest fu (QExpr.bAnd x y) r2
  | Nat.succ fu, x, Tok.orT :: rest =>
    match parseCmp fu rest with
    | Except.error e => Except.error e
    | Except.ok (y, r2) => parseBoolRest fu (QExpr.bOr x y) r2
  | _, x, rest => Except.ok (x, rest)

end

/-- The identifiers referenced by an expression, left to right. -/
def colRefs : QExpr → List String
  | QExpr.col w => [w]
  | QExpr.lit _ => []
  | QExpr.cmp a _ b => colRefs a ++ colRefs b
  | QExpr.bAnd a b => colRefs a ++ colRefs b
  | QExpr.bOr a b => colRefs a ++ colRefs b

/-- pandas DataFrame.query on a zero-row frame whose columns are cols:
raises ValueError on an empty expression or an assignment, SyntaxError
on a tokenization or parse failure, NotImplementedError on a lambda
(the pandas expression visitor rejects Lambda nodes), and
UndefinedVariableError on the first identifier that is not a column;
otherwise the evaluation on zero rows succeeds. -/
def pandasQueryOnEmpty (cols : List String) (s : String) : Except PyExc Unit :=
  if s == "" then Except.error PyExc.valErr
  else
    match tokenize s with
    | Except.error e => Except.error e
    | Except.ok ts =>
      if ts.contains (Tok.ident "lambda") then Except.error PyExc.notImplErr
      else if ts.contains Tok.assign then Except.error PyExc.valErr
      else
        match parseBool (ts.length + 1) ts with
        | Except.error e => Except.error e
        | Except.ok (x, []) =>
          match (colRefs x).filter (fun w => !(cols.contains w)) with
          | [] => Except.ok ()
          | w :: _ => Except.error (PyExc.undefVar w)
        | Except.ok _ => Except.error PyExc.synErr

/-- The exception types listed in the except clause of lines 666-671:
ValueError, SyntaxError, UnboundLocalError,
pandas.errors.UndefinedVariableError.  NotImplementedError is not among
them (and is not a subclass of any of them). -/
def isCaught : PyExc → Bool
  | PyExc.valErr => true
  | PyExc.synErr => true
  | PyExc.unboundLocalErr => true
  | PyExc.undefVar _ => true
  | PyExc.notImplErr => false

/-- The observable outcome of the /validate view: the empty-string
response (returned both for a missing/empty query and for a successful
validation), the rendered error template for a caught exception, or an
exception propagating out of the view as a raw crash. -/
inductive ValidateOutcome where
  | blank : ValidateOutcome
  | errorPage : PyExc → ValidateOutcome
  | raised : PyExc → ValidateOutcome
deriving DecidableEq, Repr

/-- Lines 624-673: the /validate view.  A missing or empty query returns
"" at once; otherwise the query is run against the empty frame with the
validatorCols columns, the four listed exception types render the error
template, and any other exception propagates. -/
def validate (q : String) : ValidateOutcome :=
  if q == "" then ValidateOutcome.blank
  else
    match pandasQueryOnEmpty validatorCols q with
    | Except.ok _ => ValidateOutcome.blank
    | Except.error e =>
      if isCaught e then ValidateOutcome.errorPage e else ValidateOutcome.raised e

/-- Stated from the spec, for comparison with the staged CPT query: all
CPT filter predicates applied conjunctively in one pass. -/
def cptConjunctiveFilter (ests : List CptVs30Estimate) (vsid cptid : Int) : List CptVs30Estimate :=
  ests.filter (fun e =>
    e.vs_to_vs30_correlation_id == vsid && e.cpt_to_vs_correlation_id == cptid)

/-- Stated from the spec, for comparison with the staged SPT query: all
SPT filter predicates applied conjunctively in one pass. -/
def sptConjunctiveFilter (ests : List SptVs30Estimate) (vsid sptid hid : Int) : List SptVs30Estimate :=
  ests.filter (fun e =>
    e.vs_to_vs30_correlation_id == vsid && e.spt_to_vs_correlation_id == sptid
      && e.hammer_type_id == hid)

/-- A concrete stand-in for the logarithm parameter; no property proved
here depends on the finite values the logarithm takes. -/
def lg0 : ℚ → ℚ := fun _ => 0

/-- The row list of a successful extraction (empty on error). -/
def okRows (r : Except String (List UnifiedRow)) : List UnifiedRow :=
  match r with
  | Except.ok l => l
  | Except.error _ => []

/-- A concrete test database: one CPT estimate on record 7 (prefix CPT)
and one SPT estimate on borehole 123 (prefix BH) with a single
measurement at depth 5. -/
def dbA : DB :=
  { vstovs30correlation := [{ name := "boore_2004", id := 1 }, { name := "boore_2011", id := 2 }]
    cpttovscorrelation := [{ name := "andrus_2007_pleistocene", id := 1 }]
    spttovscorrelation := [{ name := "brandenberg_2010", id := 1 }]
    spttovs30hammertype := [{ name := "Auto", id := 1 }]
    cptvs30estimates := [{ cpt_id := 10, nzgd_id := 7, cpt_to_vs_correlation_id := 1,
                           vs_to_vs30_correlation_id := 1, vs30 := EF.fin 250,
                           vs30_stddev := EF.fin 30 }]
    sptvs30estimates := [{ spt_id := 123, vs_to_vs30_correlation_id := 1,
                           spt_to_vs_correlation_id := 1, hammer_type_id := 1,
                           vs30 := EF.fin 300, vs30_stddev := EF.fin 40 }]
    nzgdrecord := [{ nzgd_id := 7, type_prefix_str := "CPT", original_reference := "refA",
                     investigation_date := "2020-01-01", published_date := "2020-02-01",
                     latitude := EF.fin (-43), longitude := EF.fin 172,
                     model_vs30_foster_2019 := EF.fin 200,
                     model_vs30_stddev_foster_2019 := EF.fin 50,
                     model_gwl_westerhoff_2019 := EF.fin 2,
                     region_id := 1, district_id := 1, suburb_id := 1, city_id := 1 },
                   { nzgd_id := 123, type_prefix_str := "BH", original_reference := "refB",
                     investigation_date := "2019-03-01", published_date := "2019-04-01",
                     latitude := EF.fin (-41), longitude := EF.fin 174,
                     model_vs30_foster_2019 := EF.fin 180,
                     model_vs30_stddev_foster_2019 := EF.fin 40,
                     model_gwl_westerhoff_2019 := EF.fin 3,
                     region_id := 1, district_id := 1, suburb_id := 1, city_id := 1 }]
    region := [{ id := 1, name := "Canterbury" }]
    district := [{ id := 1, name := "Christchurch District" }]
    suburb := [{ id := 1, name := "Ilam" }]
    city := [{ id := 1, name := "Christchurch" }]
    cptreport := [{ cpt_id := 10, nzgd_id := 7, tip_net_area_ratio_v := EF.fin 1,
                    measured_gwl := EF.fin 1, deepest_depth := EF.fin 12,
                    shallowest_depth := EF.fin 1 }]
    sptreport := [{ borehole_id := 123, measured_gwl := EF.fin 2, efficiency := EF.fin 70,
                    borehole_diameter := EF.fin 2 }]
    sptmeasurements := [{ borehole_id := 123, depth := 5 }] }

/-- A concrete test database whose only record has the out-of-enumeration
type prefix VC and whose only CPT estimate has vs30 = 0. -/
def dbB : DB :=
  { vstovs30correlation := [{ name := "boore_2004", id := 1 }, { name := "boore_2011", id := 2 }]
    cpttovscorrelation := [{ name := "andrus_2007_pleistocene", id := 1 }]
    spttovscorrelation := [{ name := "brandenberg_2010", id := 1 }]
    spttovs30hammertype := [{ name := "Auto", id := 1 }]
    cptvs30estimates := [{ cpt_id := 10, nzgd_id := 7, cpt_to_vs_correlation_id := 1,
                           vs_to_vs30_correlation_id := 1, vs30 := EF.fin 0,
                           vs30_stddev := EF.fin 30 }]
    sptvs30estimates := []
    nzgdrecord := [{ nzgd_id := 7, type_prefix_str := "VC", original_reference := "refC",
                     investigation_date := "2021-01-01", published_date := "2021-02-01",
                     latitude := EF.fin (-43), longitude := EF.fin 172,
                     model_vs30_foster_2019 := EF.fin 200,
                     model_vs30_stddev_foster_2019 := EF.fin 50,
                     model_gwl_westerhoff_2019 := EF.fin 2,
                     region_id := 1, district_id := 1, suburb_id := 1, city_id := 1 }]
    region := [{ id := 1, name := "Canterbury" }]
    district := [{ id := 1, name := "Christchurch District" }]
    suburb := [{ id := 1, name := "Ilam" }]
    city := [{ id := 1, name := "Christchurch" }]
    cptreport := [{ cpt_id := 10, nzgd_id := 7, tip_net_area_ratio_v := EF.fin 1,
                    measured_gwl := EF.fin 1, deepest_depth := EF.fin 12,
                    shallowest_depth := EF.fin 1 }]
    sptreport := []
    sptmeasurements := [] }

/-- A placeholder unified row, used only as the default of List.headD in
closed witness statements. -/
def uDummy : UnifiedRow :=
  { cpt_id := EF.nan, nzgd_id := 0, vs30 := EF.nan, vs30_stddev := EF.nan,
    type_prefix_str := "", original_reference := "", investigation_date := "",
    published_date := "", latitude := EF.nan, longitude := EF.nan,
    model_vs30_foster_2019 := EF.nan, model_vs30_stddev_foster_2019 := EF.nan,
    model_gwl_westerhoff_2019 := EF.nan, cpt_tip_net_area_ratio_v := EF.nan,
    measured_gwl := EF.nan, deepest_depth := EF.nan, shallowest_depth := EF.nan,
    region := "", district := "", suburb := "", city := "", record_name := "",
    vs30_residual := EF.nan, gwl_residual := EF.nan, spt_efficiency := EF.nan,
    spt_borehole_diameter := EF.nan, type_number_code := EF.nan }

/-- A concrete SPT query row on a borehole (777) that has no measurement
rows, used in closed witness statements. -/
def qRow777 : SptQueryRow :=
  { spt_id := 777, vs30 := EF.fin 210, vs30_stddev := EF.fin 20,
    type_prefix_str := "BH", original_reference := "refD",
    investigation_date := "2018-01-01", published_date := "2018-02-01",
    latitude := EF.fin (-41), longitude := EF.fin 175,
    model_vs30_foster_2019 := EF.fin 190, model_vs30_stddev_foster_2019 := EF.fin 45,
    model_gwl_westerhoff_2019 := EF.fin 4, measured_gwl := EF.fin 3,
    efficiency := EF.fin 60, borehole_diameter := EF.fin 2,
    region_name := "Wellington", district_name := "Wellington District",
    suburb_name := "Te Aro", city_name := "Wellington" }

/-- The unified output of the extraction on dbA. -/
def outA : List UnifiedRow :=
  okRows (all_vs30s_given_correlations lg0 dbA "boore_2004" "andrus_2007_pleistocene" "brandenberg_2010" "Auto")

/-- The unified output of the extraction on dbB. -/
def outB : List UnifiedRow :=
  okRows (all_vs30s_given_correlations lg0 dbB "boore_2004" "andrus_2007_pleistocene" "brandenberg_2010" "Auto")

/-
Helper lemmas.
-/

theorem length_flatMap_le {α β : Type} (l : List α) (f : α → List β)
    (hf : ∀ a ∈ l, (f a).length ≤ 1) : (l.flatMap f).length ≤ l.length := by
  induction l with
  | nil => simp
  | cons a t ih =>
    simp only [List.flatMap_cons, List.length_append, List.length_cons]
    have h1 : (f a).length ≤ 1 := hf a (List.mem_cons_self a t)
    have h2 : (t.flatMap f).length ≤ t.length :=
      ih (fun x hx => hf x (List.mem_cons_of_mem a hx))
    omega

theorem length_flatMap_le_one {α β : Type} (l : List α) (f : α → List β)
    (hl : l.length ≤ 1) (hf : ∀ a ∈ l, (f a).length ≤ 1) : (l.flatMap f).length ≤ 1 := by
  match l with
  | [] => simp
  | [a] =>
    simp only [List.flatMap_cons, List.flatMap_nil, List.append_nil]
    exact hf a (List.mem_singleton_self a)
  | a :: b :: t => simp at hl

theorem filter_key_len_le_one {α : Type} (key : α → Int) (l : List α)
    (h : (l.map key).Nodup) (i : Int) :
    (l.filter (fun a => key a == i)).length ≤ 1 := by
  induction l with
  | nil => simp
  | cons a t ih =>
    rw [List.map_cons, List.nodup_cons] at h
    rw [List.filter_cons]
    by_cases hk : key a = i
    · have hnone : t.filter (fun x => key x == i) = [] := by
        rw [List.filter_eq_nil_iff]
        intro x hx hxi
        rw [beq_iff_eq] at hxi
        exact h.1 (List.mem_map.mpr ⟨x, hx, hxi.trans hk.symm⟩)
      simp [hk, hnone]
    · have : (key a == i) = false := beq_eq_false_iff_ne.mpr hk
      simp only [this, if_false]
      exact ih h.2

theorem leftMergeDepth_length (rows : List SptQueryRow) (stats : List DepthStat)
    (h : (stats.map DepthStat.borehole_id).Nodup) :
    (leftMergeDepth rows stats).length = rows.length := by
  induction rows with
  | nil => rfl
  | cons r t ih =>
    have hf : (stats.filter (fun s => s.borehole_id == r.spt_id)).length ≤ 1 :=
      filter_key_len_le_one DepthStat.borehole_id stats h r.spt_id
    rw [leftMergeDepth, List.flatMap_cons, List.length_append, List.length_cons]
    rw [leftMergeDepth] at ih
    rw [ih]
    rcases hfe : stats.filter (fun s => s.borehole_id == r.spt_id) with _ | ⟨s, ss⟩
    · rw [hfe]
      exact Nat.add_comm 1 t.length
    · rw [hfe] at hf ⊢
      have hss : ss = [] := by
        rw [List.length_cons] at hf
        exact List.eq_nil_of_length_eq_zero (by omega)
      subst hss
      exact Nat.add_comm 1 t.length

theorem depthStats_map_key_sublist (ms : List SptMeasurement) (l : List Int) :
    ((l.filterMap (statFor ms)).map DepthStat.borehole_id).Sublist l := by
  induction l with
  | nil => simp
  | cons b t ih =>
    rw [List.filterMap_cons]
    cases hb : statFor ms b with
    | none => exact ih.cons b
    | some s =>
      have hsb : DepthStat.borehole_id s = b := by
        rw [statFor] at hb
        rcases hd : depthsOfB ms b with _ | ⟨d, ds⟩ <;> rw [hd] at hb
        · cases hb
        · cases hb
          rfl
      rw [List.map_cons, hsb]
      exact ih.cons₂ b

theorem depthStats_keys_nodup (ms : List SptMeasurement) :
    ((depthStats ms).map DepthStat.borehole_id).Nodup := by
  have hs := depthStats_map_key_sublist ms ((ms.map (fun m => m.borehole_id)).dedup)
  exact List.Nodup.sublist hs (List.nodup_dedup _)

theorem foldl_min_le (ds : List ℚ) : ∀ d : ℚ, ∀ x ∈ d :: ds, List.foldl min d ds ≤ x := by
  induction ds with
  | nil =>
    intro d x hx
    rw [List.mem_singleton] at hx
    subst hx
    exact le_refl _
  | cons e t ih =>
    intro d x hx
    have h0 : List.foldl min d (e :: t) = List.foldl min (min d e) t := rfl
    rw [h0]
    have hh : List.foldl min (min d e) t ≤ min d e :=
      ih (min d e) (min d e) (List.mem_cons_self _ _)
    rcases List.mem_cons.mp hx with rfl | hx2
    · exact le_trans hh (min_le_left _ _)
    · rcases List.mem_cons.mp hx2 with rfl | hx3
      · exact le_trans hh (min_le_right _ _)
      · exact ih (min d e) x (List.mem_cons_of_mem _ hx3)

theorem foldl_min_mem (ds : List ℚ) : ∀ d : ℚ, List.foldl min d ds ∈ d :: ds := by
  induction ds with
  | nil => intro d; exact List.mem_singleton_self d
  | cons e t ih =>
    intro d
    have h0 : List.foldl min d (e :: t) = List.foldl min (min d e) t := rfl
    rw [h0]
    rcases List.mem_cons.mp (ih (min d e)) with heq | hmem
    · rcases min_choice d e with hc | hc
      · rw [heq, hc]; exact List.mem_cons_self _ _
      · rw [heq, hc]; exact List.mem_cons_of_mem _ (List.mem_cons_self _ _)
    · exact List.mem_cons_of_mem _ (List.mem_cons_of_mem _ hmem)

theorem foldl_max_le (ds : List ℚ) : ∀ d : ℚ, ∀ x ∈ d :: ds, x ≤ List.foldl max d ds := by
  induction ds with
  | nil =>
    intro d x hx
    rw [List.mem_singleton] at hx
    subst hx
    exact le_refl _
  | cons e t ih =>
    intro d x hx
    have h0 : List.foldl max d (e :: t) = List.foldl max (max d e) t := rfl
    rw [h0]
    have hh : max d e ≤ List.foldl max (max d e) t :=
      ih (max d e) (max d e) (List.mem_cons_self _ _)
    rcases List.mem_cons.mp hx with rfl | hx2
    · exact le_trans (le_max_left _ _) hh
    · rcases List.mem_cons.mp hx2 with rfl | hx3
      · exact le_trans (le_max_right _ _) hh
      · exact ih (max d e) x (List.mem_cons_of_mem _ hx3)

theorem foldl_max_mem (ds : List ℚ) : ∀ d : ℚ, List.foldl max d ds ∈ d :: ds := by
  induction ds with
  | nil => intro d; exact List.mem_singleton_self d
  | cons e t ih =>
    intro d
    have h0 : List.foldl max d (e :: t) = List.foldl max (max d e) t := rfl
    rw [h0]
    rcases List.mem_cons.mp (ih (max d e)) with heq | hmem
    · rcases max_choice d e with hc | hc
      · rw [heq, hc]; exact List.mem_cons_self _ _
      · rw [heq, hc]; exact List.mem_cons_of_mem _ (List.mem_cons_self _ _)
    · exact List.mem_cons_of_mem _ (List.mem_cons_of_mem _ hmem)

theorem resolveId_error_of_not_mem (catalog : List CorrRow) (nm : String)
    (h : nm ∉ catalog.map CorrRow.name) :
    resolveId catalog nm = Except.error "IndexError" := by
  rw [resolveId]
  have hnil : catalog.filter (fun r => r.name == nm) = [] := by
    rw [List.filter_eq_nil_iff]
    intro r hr hbeq
    rw [beq_iff_eq] at hbeq
    exact h (List.mem_map.mpr ⟨r, hr, hbeq⟩)
  rw [hnil]

theorem resolveId_error_eq (catalog : List CorrRow) (nm : String) (e : String)
    (h : resolveId catalog nm = Except.error e) : e = "IndexError" := by
  rw [resolveId] at h
  rcases hf : catalog.filter (fun r => r.name == nm) with _ | ⟨r, t⟩ <;> rw [hf] at h
  · cases h
    rfl
  · cases h

theorem resolveId_ok_of_mem (catalog : List CorrRow) (nm : String) (i : Int)
    (hnodup : (catalog.map CorrRow.name).Nodup)
    (hmem : ({ name := nm, id := i } : CorrRow) ∈ catalog) :
    resolveId catalog nm = Except.ok i := by
  induction catalog with
  | nil => cases hmem
  | cons r t ih =>
    rw [List.map_cons, List.nodup_cons] at hnodup
    rcases List.mem_cons.mp hmem with heq | hmem2
    · subst heq
      rw [resolveId]
      simp [List.filter_cons]
    · have hname : r.name ≠ nm := by
        intro hceq
        apply hnodup.1
        rw [hceq]
        exact List.mem_map.mpr ⟨{ name := nm, id := i }, hmem2, rfl⟩
      have hbf : (r.name == nm) = false := beq_eq_false_iff_ne.mpr hname
      have hrec := ih hnodup.2 hmem2
      rw [resolveId, List.filter_cons, hbf]
      rw [resolveId] at hrec
      simp only [Bool.false_eq_true, if_false]
      exact hrec

theorem mem_colUnion (xs ys : List String) (c : String) :
    c ∈ colUnion xs ys ↔ c ∈ xs ∨ c ∈ ys := by
  rw [colUnion, List.mem_append, List.mem_filter]
  constructor
  · rintro (h | ⟨h, _⟩)
    · exact Or.inl h
    · exact Or.inr h
  · intro h
    by_cases hx : c ∈ xs
    · exact Or.inl hx
    · rcases h with h | h
      · exact absurd h hx
      · refine Or.inr ⟨h, ?_⟩
        simp [hx]

theorem all_vs30s_ok_shape (lg : ℚ → ℚ) (db : DB) (n1 n2 n3 n4 : String)
    (out : List UnifiedRow)
    (hok : all_vs30s_given_correlations lg db n1 n2 n3 n4 = Except.ok out) :
    ∃ vsid cptid sptid hid,
      resolveId db.vstovs30correlation n1 = Except.ok vsid ∧
      resolveId db.cpttovscorrelation n2 = Except.ok cptid ∧
      resolveId db.spttovscorrelation n3 = Except.ok sptid ∧
      resolveId db.spttovs30hammertype n4 = Except.ok hid ∧
      out = unify (cptDf lg db vsid cptid) (sptDf lg db vsid sptid hid) := by
  rw [all_vs30s_given_correlations] at hok
  rcases h1 : resolveId db.vstovs30correlation n1 with e | vsid <;> rw [h1] at hok
  · cases hok
  rcases h2 : resolveId db.cpttovscorrelation n2 with e | cptid <;> rw [h2] at hok
  · cases hok
  rcases h3 : resolveId db.spttovscorrelation n3 with e | sptid <;> rw [h3] at hok
  · cases hok
  rcases h4 : resolveId db.spttovs30hammertype n4 with e | hid <;> rw [h4] at hok
  · cases hok
  cases hok
  exact ⟨vsid, cptid, sptid, hid, rfl, rfl, rfl, rfl, rfl⟩

theorem cptJoin_length_le (db : DB) (sf : List CptVs30Estimate)
    (hn : (db.nzgdrecord.map NzgdRecord.nzgd_id).Nodup)
    (hr : (db.region.map NameRow.id).Nodup)
    (hd : (db.district.map NameRow.id).Nodup)
    (hs : (db.suburb.map NameRow.id).Nodup)
    (hc : (db.city.map NameRow.id).Nodup)
    (hcr : (db.cptreport.map CptReport.cpt_id).Nodup) :
    (cptJoin db sf).length ≤ sf.length := by
  rw [cptJoin]
  apply length_flatMap_le
  intro e _
  apply length_flatMap_le_one _ _ (filter_key_len_le_one _ _ hn _)
  intro n _
  apply length_flatMap_le_one _ _ (filter_key_len_le_one _ _ hr _)
  intro r _
  apply length_flatMap_le_one _ _ (filter_key_len_le_one _ _ hd _)
  intro d _
  apply length_flatMap_le_one _ _ (filter_key_len_le_one _ _ hs _)
  intro sb _
  apply length_flatMap_le_one _ _ (filter_key_len_le_one _ _ hc _)
  intro ct _
  rw [List.length_map]
  exact filter_key_len_le_one _ _ hcr _

theorem sptJoin_length_le (db : DB) (tf : List SptVs30Estimate)
    (hn : (db.nzgdrecord.map NzgdRecord.nzgd_id).Nodup)
    (hr : (db.region.map NameRow.id).Nodup)
    (hd : (db.district.map NameRow.id).Nodup)
    (hs : (db.suburb.map NameRow.id).Nodup)
    (hc : (db.city.map NameRow.id).Nodup)
    (hsr : (db.sptreport.map SptReport.borehole_id).Nodup) :
    (sptJoin db tf).length ≤ tf.length := by
  rw [sptJoin]
  apply length_flatMap_le
  intro e _
  apply length_flatMap_le_one _ _ (filter_key_len_le_one _ _ hn _)
  intro n _
  apply length_flatMap_le_one _ _ (filter_key_len_le_one _ _ hsr _)
  intro sr _
  apply length_flatMap_le_one _ _ (filter_key_len_le_one _ _ hr _)
  intro r _
  apply length_flatMap_le_one _ _ (filter_key_len_le_one _ _ hd _)
  intro d _
  apply length_flatMap_le_one _ _ (filter_key_len_le_one _ _ hs _)
  intro sb _
  rw [List.length_map]
  exact filter_key_len_le_one _ _ hc _

theorem headD_mem {α : Type} (l : List α) (d : α) (h : l ≠ []) : l.headD d ∈ l := by
  cases l with
  | nil => exact absurd rfl h
  | cons a t => exact List.mem_cons_self a t

/-
Claim theorems.
-/

/-- C1.  The claim states that every row of the unified output has
record_name = type_prefix, an underscore, and the decimal nzgd_id.  The
code builds the CPT record_name that way (line 126-130) but builds the
SPT record_name without the underscore (line 203-205): on a database with
one CPT estimate (record 7, prefix CPT) and one SPT estimate (borehole
123, prefix BH) the output names are CPT_7 and BH123, and BH123 is not
BH_123 as the claim requires. -/
theorem c1_spt_record_name_missing_separator :
    (okRows (all_vs30s_given_correlations lg0 dbA "boore_2004" "andrus_2007_pleistocene" "brandenberg_2010" "Auto")).map
        (fun u => (u.type_prefix_str, u.nzgd_id, u.record_name))
      = [("CPT", 7, "CPT_7"), ("BH", 123, "BH123")]
    ∧ ("BH123" : String) ≠ "BH" ++ "_" ++ toString (123 : Int) := by
  exact ⟨by decide, by decide⟩

/-- C2 counterexample.  The claim states that a CPT record with vs30 = 0
gets a null vs30_residual.  On a database whose only CPT estimate has
vs30 = 0 (and model Vs30 200), the unified output row has
vs30_residual = -infinity, which pandas does not treat as null: np.log(0)
is -inf, not NaN. -/
theorem c2_zero_vs30_counterexample :
    (okRows (all_vs30s_given_correlations lg0 dbB "boore_2004" "andrus_2007_pleistocene" "brandenberg_2010" "Auto")).map
        (fun u => (u.vs30, u.vs30_residual, EF.isna u.vs30_residual))
      = [(EF.fin 0, EF.ninf, false)] := by
  decide

/-- C2 amended.  vs30_residual = np.log(vs30) - np.log(model) never
raises (np.log only warns on domain errors): the residual is null (NaN)
when vs30 is null or negative, it is -infinity (non-null) when vs30 is
zero and the model value is positive, and it is ln(vs30) - ln(model) when
both are positive. -/
theorem c2_residual_null_propagation (lg : ℚ → ℚ) (v m : EF) :
    (EF.isna v = true → vs30ResidualOf lg v m = EF.nan) ∧
    (∀ q : ℚ, v = EF.fin q → q < 0 → vs30ResidualOf lg v m = EF.nan) ∧
    (∀ qm : ℚ, v = EF.fin 0 → m = EF.fin qm → 0 < qm → vs30ResidualOf lg v m = EF.ninf) ∧
    (∀ qv qm : ℚ, v = EF.fin qv → m = EF.fin qm → 0 < qv → 0 < qm →
      vs30ResidualOf lg v m = EF.fin (lg qv - lg qm)) := by
  refine ⟨?_, ?_, ?_, ?_⟩
  · intro hv
    have hvn : v = EF.nan := by
      cases v with
      | nan => rfl
      | fin q => simp [EF.isna] at hv
      | pinf => simp [EF.isna] at hv
      | ninf => simp [EF.isna] at hv
    subst hvn
    cases m <;> rfl
  · intro q hq hneg
    subst hq
    have h1 : ¬(0 < q) := not_lt.mpr (le_of_lt hneg)
    have h2 : ¬(q = 0) := ne_of_lt hneg
    rw [vs30ResidualOf, npLog]
    rw [if_neg h1, if_neg h2]
    cases m <;> rfl
  · intro qm hv hm hpos
    subst hv
    subst hm
    rw [vs30ResidualOf, npLog, npLog]
    rw [if_neg (lt_irrefl 0), if_pos rfl, if_pos hpos]
    rfl
  · intro qv qm hv hm hqv hqm
    subst hv
    subst hm
    rw [vs30ResidualOf, npLog, npLog]
    rw [if_pos hqv, if_pos hqm]
    rfl

/-- C2 witness: the amended theorem applied at concrete inputs; a
negative vs30 yields a null residual and a positive pair yields the
log difference. -/
theorem c2_witness :
    vs30ResidualOf lg0 (EF.fin (-1)) (EF.fin 200) = EF.nan ∧
    vs30ResidualOf lg0 (EF.fin 250) (EF.fin 200) = EF.fin (lg0 250 - lg0 200) :=
  ⟨(c2_residual_null_propagation lg0 (EF.fin (-1)) (EF.fin 200)).2.1 (-1) rfl (by norm_num),
   (c2_residual_null_propagation lg0 (EF.fin 250) (EF.fin 200)).2.2.2 250 200 rfl rfl
     (by norm_num) (by norm_num)⟩

/-- C3.  The claim (and the spec) require the validator column set to
equal the unified output column set; the code violates it.  The unified
table has type_number_code, vs30_residual, spt_efficiency and
spt_borehole_diameter, none of which the validator lists; the validator
instead lists vs30_log_residual, efficiency and borehole_diameter, which
the unified table does not have.  Consequently a filter on the live
column type_number_code is rejected by the validator as an unknown
column. -/
theorem c3_validator_schema_drift :
    ("type_number_code" ∈ unifiedCols ∧ "type_number_code" ∉ validatorCols) ∧
    ("vs30_residual" ∈ unifiedCols ∧ "vs30_residual" ∉ validatorCols) ∧
    ("spt_efficiency" ∈ unifiedCols ∧ "spt_efficiency" ∉ validatorCols) ∧
    ("vs30_log_residual" ∈ validatorCols ∧ "vs30_log_residual" ∉ unifiedCols) ∧
    unifiedCols.toFinset ≠ validatorCols.toFinset ∧
    validate "type_number_code == 0" = ValidateOutcome.errorPage (PyExc.undefVar "type_number_code") := by
  refine ⟨⟨by decide, by decide⟩, ⟨by decide, by decide⟩, ⟨by decide, by decide⟩,
    ⟨by decide, by decide⟩, ?_, by decide⟩
  intro heq
  have h1 : "type_number_code" ∈ unifiedCols.toFinset := List.mem_toFinset.mpr (by decide)
  rw [heq] at h1
  exact (by decide : "type_number_code" ∉ validatorCols) (List.mem_toFinset.mp h1)

/-- C4 counterexample.  The claim states that the validator catches any
unexpected internal error and reports it as a structured result.  The
except clause only lists ValueError, SyntaxError, UnboundLocalError and
UndefinedVariableError; the NotImplementedError that pandas raises for a
lambda expression is none of these and propagates out of the view as a
raw crash. -/
theorem c4_uncaught_error_counterexample :
    validate "lambda: 0" = ValidateOutcome.raised PyExc.notImplErr := by
  decide

/-- C4 amended.  The validator decides the three scenario expressions as
the spec states, evaluating them only against the empty schema frame, and
it renders a structured error page for every caught exception kind
(ValueError, SyntaxError, UnboundLocalError, UndefinedVariableError); an
evaluation error of any other type propagates as a raw crash instead of
being reported. -/
theorem c4_validator_outcomes :
    validate "vs30 > 300" = ValidateOutcome.blank ∧
    validate "nonexistent_col > 1" = ValidateOutcome.errorPage (PyExc.undefVar "nonexistent_col") ∧
    validate "vs30 >" = ValidateOutcome.errorPage PyExc.synErr ∧
    (∀ (q : String) (e : PyExc), q ≠ "" → pandasQueryOnEmpty validatorCols q = Except.error e →
        isCaught e = true → validate q = ValidateOutcome.errorPage e) ∧
    (∀ (q : String) (e : PyExc), q ≠ "" → pandasQueryOnEmpty validatorCols q = Except.error e →
        isCaught e = false → validate q = ValidateOutcome.raised e) := by
  refine ⟨by decide, by decide, by decide, ?_, ?_⟩
  · intro q e hq hpq hc
    have hb : (q == "") = false := beq_eq_false_iff_ne.mpr hq
    rw [validate, hb]
    simp only [Bool.false_eq_true, if_false]
    rw [hpq]
    simp [hc]
  · intro q e hq hpq hc
    have hb : (q == "") = false := beq_eq_false_iff_ne.mpr hq
    rw [validate, hb]
    simp only [Bool.false_eq_true, if_false]
    rw [hpq]
    simp [hc]

/-- C4 witness: the caught-classification clause of the theorem applied
to a concrete unbalanced-parenthesis expression. -/
theorem c4_witness :
    validate "(vs30 > 1" = ValidateOutcome.errorPage PyExc.synErr :=
  c4_validator_outcomes.2.2.2.1 "(vs30 > 1" PyExc.synErr (by decide) rfl rfl

/-- C5.  The extraction applies its predicates as sequential narrowing
stages with the velocity-to-Vs30 predicate first (the shape of
cptFirstFilter/cptSecondFilter and the three SPT stages); the staged
filters equal the conjunctive filter, and under the database key
invariants (the join keys of nzgdrecord, the four location tables and the
two report tables are unique) the unified output row count is at most the
number of precomputed estimates carrying the resolved velocity-to-Vs30
id. -/
theorem c5_staged_narrowing (lg : ℚ → ℚ) (db : DB) (n1 n2 n3 n4 : String)
    (vsid : Int) (out : List UnifiedRow)
    (hn : (db.nzgdrecord.map NzgdRecord.nzgd_id).Nodup)
    (hr : (db.region.map NameRow.id).Nodup)
    (hd : (db.district.map NameRow.id).Nodup)
    (hs : (db.suburb.map NameRow.id).Nodup)
    (hc : (db.city.map NameRow.id).Nodup)
    (hcr : (db.cptreport.map CptReport.cpt_id).Nodup)
    (hsr : (db.sptreport.map SptReport.borehole_id).Nodup)
    (hok : all_vs30s_given_correlations lg db n1 n2 n3 n4 = Except.ok out)
    (hvs : resolveId db.vstovs30correlation n1 = Except.ok vsid) :
    (∀ (ests : List CptVs30Estimate) (v c : Int),
        cptSecondFilter (cptFirstFilter ests v) c = cptConjunctiveFilter ests v c) ∧
    (∀ (ests : List SptVs30Estimate) (v s h : Int),
        sptThirdFilter (sptSecondFilter (sptFirstFilter ests v) s) h = sptConjunctiveFilter ests v s h) ∧
    out.length ≤ (cptFirstFilter db.cptvs30estimates vsid).length
        + (sptFirstFilter db.sptvs30estimates vsid).length := by
  refine ⟨?_, ?_, ?_⟩
  · intro ests v c
    rw [cptSecondFilter, cptFirstFilter, cptConjunctiveFilter, List.filter_filter]
    apply List.filter_congr
    intro a _
    cases a.vs_to_vs30_correlation_id == v <;> cases a.cpt_to_vs_correlation_id == c <;> rfl
  · intro ests v s h
    rw [sptThirdFilter, sptSecondFilter, sptFirstFilter, sptConjunctiveFilter,
        List.filter_filter, List.filter_filter]
    apply List.filter_congr
    intro a _
    cases a.vs_to_vs30_correlation_id == v <;> cases a.spt_to_vs_correlation_id == s <;>
      cases a.hammer_type_id == h <;> rfl
  · obtain ⟨vsid2, cptid, sptid, hid, h1, h2, h3, h4, hout⟩ :=
      all_vs30s_ok_shape lg db n1 n2 n3 n4 out hok
    rw [hvs] at h1
    cases h1
    subst hout
    have hu : (unify (cptDf lg db vsid cptid) (sptDf lg db vsid sptid hid)).length
        = (cptDf lg db vsid cptid).length + (sptDf lg db vsid sptid hid).length := by
      simp [unify]
    rw [hu]
    have hcpt : (cptDf lg db vsid cptid).length
        ≤ (cptFirstFilter db.cptvs30estimates vsid).length := by
      rw [cptDf, cptAddDerived, List.length_map]
      calc (cptJoin db (cptSecondFilter (cptFirstFilter db.cptvs30estimates vsid) cptid)).length
          ≤ (cptSecondFilter (cptFirstFilter db.cptvs30estimates vsid) cptid).length :=
            cptJoin_length_le db _ hn hr hd hs hc hcr
        _ ≤ (cptFirstFilter db.cptvs30estimates vsid).length := by
            rw [cptSecondFilter]; exact List.length_filter_le _ _
    have hspt : (sptDf lg db vsid sptid hid).length
        ≤ (sptFirstFilter db.sptvs30estimates vsid).length := by
      rw [sptDf, sptAddDerived, List.length_map]
      rw [leftMergeDepth_length _ _ (depthStats_keys_nodup _)]
      calc (sptJoin db (sptThirdFilter (sptSecondFilter (sptFirstFilter db.sptvs30estimates vsid) sptid) hid)).length
          ≤ (sptThirdFilter (sptSecondFilter (sptFirstFilter db.sptvs30estimates vsid) sptid) hid).length :=
            sptJoin_length_le db _ hn hr hd hs hc hsr
        _ ≤ (sptSecondFilter (sptFirstFilter db.sptvs30estimates vsid) sptid).length := by
            rw [sptThirdFilter]; exact List.length_filter_le _ _
        _ ≤ (sptFirstFilter db.sptvs30estimates vsid).length := by
            rw [sptSecondFilter]; exact List.length_filter_le _ _
    exact Nat.add_le_add hcpt hspt

/-- C5 witness: the row-count bound of the theorem applied to the
concrete database dbA with the resolved velocity-to-Vs30 id 1. -/
theorem c5_witness :
    outA.length ≤ (cptFirstFilter dbA.cptvs30estimates 1).length
        + (sptFirstFilter dbA.sptvs30estimates 1).length :=
  (c5_staged_narrowing lg0 dbA "boore_2004" "andrus_2007_pleistocene" "brandenberg_2010" "Auto"
    1 outA (by decide) (by decide) (by decide) (by decide) (by decide) (by decide) (by decide)
    rfl rfl).2.2

/-- C6 counterexample.  The claim states that the displayed Vs30
availability of every record is one of the three states; a record whose
deepest_depth is null (as the left merge produces for a borehole with no
measurement rows) matches none of the three masks and keeps the raw
float vs30 cell, which is not one of the three states. -/
theorem c6_null_depth_counterexample :
    displayVs30 "boore_2004" EF.nan EF.nan = Cell.raw EF.nan ∧
    ¬ isThreeWayState "boore_2004" (displayVs30 "boore_2004" EF.nan EF.nan) := by
  have hdisp : displayVs30 "boore_2004" EF.nan EF.nan = Cell.raw EF.nan := by decide
  refine ⟨hdisp, ?_⟩
  intro h
  rw [hdisp] at h
  rcases h with h | h | ⟨v, h⟩ <;> simp [isThreeWayState] at h

/-- C6 amended.  The threshold is 5 m for boore_2011 and 10 m for any
other velocity-to-Vs30 selection; a record whose (non-null)
deepest_depth is below the threshold displays the insufficient-depth
sentinel regardless of its vs30 (in particular boore_2011 with depth 3);
at or above the threshold a null-or-zero vs30 displays the
computation-failed sentinel and any other vs30 displays the formatted
value; thus the display is three-way for every record whose
deepest_depth is non-null. -/
theorem c6_display_depth_rules :
    minRequiredDepth "boore_2011" = 5 ∧
    (∀ s : String, s ≠ "boore_2011" → minRequiredDepth s = 10) ∧
    (∀ v : EF, displayVs30 "boore_2011" (EF.fin 3) v = Cell.text (reasonText "boore_2011")) ∧
    (∀ (corr : String) (d : ℚ) (v : EF), d < minRequiredDepth corr →
        displayVs30 corr (EF.fin d) v = Cell.text (reasonText corr)) ∧
    (∀ (corr : String) (d : ℚ) (v : EF), minRequiredDepth corr ≤ d →
        (EF.isna v = true ∨ v = EF.fin 0) → displayVs30 corr (EF.fin d) v = Cell.text failedText) ∧
    (∀ (corr : String) (d : ℚ) (v : EF), minRequiredDepth corr ≤ d →
        EF.isna v = false → v ≠ EF.fin 0 → displayVs30 corr (EF.fin d) v = Cell.fmtVal v) ∧
    (∀ (corr : String) (d : ℚ) (v : EF), isThreeWayState corr (displayVs30 corr (EF.fin d) v)) := by
  have hbelow : ∀ (corr : String) (d : ℚ) (v : EF), d < minRequiredDepth corr →
      displayVs30 corr (EF.fin d) v = Cell.text (reasonText corr) := by
    intro corr d v hdl
    have hlt : EF.lt (EF.fin d) (EF.fin (minRequiredDepth corr)) = true := by
      simp [EF.lt, hdl]
    rw [displayVs30, hlt]
    simp
  have hfail : ∀ (corr : String) (d : ℚ) (v : EF), minRequiredDepth corr ≤ d →
      (EF.isna v = true ∨ v = EF.fin 0) →
      displayVs30 corr (EF.fin d) v = Cell.text failedText := by
    intro corr d v hdl hv
    have hlt : EF.lt (EF.fin d) (EF.fin (minRequiredDepth corr)) = false := by
      simp [EF.lt, not_lt.mpr hdl]
    have hge : EF.ge (EF.fin d) (EF.fin (minRequiredDepth corr)) = true := by
      simp [EF.ge, hdl]
    have hcond : (EF.isna v || v == EF.fin 0) = true := by
      rcases hv with h | h
      · simp [h]
      · simp [h]
    rw [displayVs30, hlt, hge, hcond]
    simp
  have hokv : ∀ (corr : String) (d : ℚ) (v : EF), minRequiredDepth corr ≤ d →
      EF.isna v = false → v ≠ EF.fin 0 →
      displayVs30 corr (EF.fin d) v = Cell.fmtVal v := by
    intro corr d v hdl hna hnz
    have hlt : EF.lt (EF.fin d) (EF.fin (minRequiredDepth corr)) = false := by
      simp [EF.lt, not_lt.mpr hdl]
    have hge : EF.ge (EF.fin d) (EF.fin (minRequiredDepth corr)) = true := by
      simp [EF.ge, hdl]
    have hcond : (EF.isna v || v == EF.fin 0) = false := by
      simp [hna, beq_eq_false_iff_ne.mpr hnz]
    rw [displayVs30, hlt, hge, hcond]
    simp
  have hthree : ∀ (corr : String) (d : ℚ) (v : EF),
      isThreeWayState corr (displayVs30 corr (EF.fin d) v) := by
    intro corr d v
    rcases lt_or_le d (minRequiredDepth corr) with hdl | hdl
    · exact Or.inl (hbelow corr d v hdl)
    · by_cases hna : EF.isna v = true
      · exact Or.inr (Or.inl (hfail corr d v hdl (Or.inl hna)))
      · by_cases hz : v = EF.fin 0
        · exact Or.inr (Or.inl (hfail corr d v hdl (Or.inr hz)))
        · have hna2 : EF.isna v = false := by
            cases hcase : EF.isna v
            · rfl
            · exact absurd hcase hna
          exact Or.inr (Or.inr ⟨v, hokv corr d v hdl hna2 hz⟩)
  refine ⟨by decide, ?_, ?_, hbelow, hfail, hokv, hthree⟩
  · intro s hsne
    have hb : (s == "boore_2011") = false := beq_eq_false_iff_ne.mpr hsne
    rw [minRequiredDepth, hb]
    simp
  · intro v
    exact hbelow "boore_2011" 3 v (by decide)

/-- C6 witness: the amended theorem applied at concrete inputs: the
boore_2004 threshold, a below-threshold boore_2011 record, and an
at-threshold record with vs30 = 0. -/
theorem c6_witness :
    minRequiredDepth "boore_2004" = 10 ∧
    displayVs30 "boore_2011" (EF.fin 3) (EF.fin 250) = Cell.text (reasonText "boore_2011") ∧
    displayVs30 "boore_2004" (EF.fin 12) (EF.fin 0) = Cell.text failedText :=
  ⟨c6_display_depth_rules.2.1 "boore_2004" (by decide),
   c6_display_depth_rules.2.2.1 (EF.fin 250),
   c6_display_depth_rules.2.2.2.2.1 "boore_2004" 12 (EF.fin 0) (by decide) (Or.inr rfl)⟩

/-- C7.  A correlation name absent from its catalog on any of the four
axes makes the whole extraction raise IndexError, for every content of
the two precomputed-estimate tables (so no extraction query can have
contributed), and never substitutes a default id; a name present in a
catalog with unique names resolves to its id. -/
theorem c7_unknown_correlation_resolution :
    (∀ (lg : ℚ → ℚ) (db : DB) (n1 n2 n3 n4 : String),
        (n1 ∉ db.vstovs30correlation.map CorrRow.name ∨
         n2 ∉ db.cpttovscorrelation.map CorrRow.name ∨
         n3 ∉ db.spttovscorrelation.map CorrRow.name ∨
         n4 ∉ db.spttovs30hammertype.map CorrRow.name) →
        ∀ (cEst : List CptVs30Estimate) (sEst : List SptVs30Estimate),
          all_vs30s_given_correlations lg
              { db with cptvs30estimates := cEst, sptvs30estimates := sEst } n1 n2 n3 n4
            = Except.error "IndexError") ∧
    (∀ (catalog : List CorrRow) (nm : String) (i : Int),
        (catalog.map CorrRow.name).Nodup → ({ name := nm, id := i } : CorrRow) ∈ catalog →
        resolveId catalog nm = Except.ok i) := by
  constructor
  · intro lg db n1 n2 n3 n4 habs cEst sEst
    have e1 : ({ db with cptvs30estimates := cEst, sptvs30estimates := sEst } : DB).vstovs30correlation
        = db.vstovs30correlation := rfl
    have e2 : ({ db with cptvs30estimates := cEst, sptvs30estimates := sEst } : DB).cpttovscorrelation
        = db.cpttovscorrelation := rfl
    have e3 : ({ db with cptvs30estimates := cEst, sptvs30estimates := sEst } : DB).spttovscorrelation
        = db.spttovscorrelation := rfl
    have e4 : ({ db with cptvs30estimates := cEst, sptvs30estimates := sEst } : DB).spttovs30hammertype
        = db.spttovs30hammertype := rfl
    rw [all_vs30s_given_correlations, e1, e2, e3, e4]
    rcases h1 : resolveId db.vstovs30correlation n1 with e | vsid
    · exact congrArg Except.error (resolveId_error_eq _ _ _ h1)
    rcases h2 : resolveId db.cpttovscorrelation n2 with e | cptid
    · exact congrArg Except.error (resolveId_error_eq _ _ _ h2)
    rcases h3 : resolveId db.spttovscorrelation n3 with e | sptid
    · exact congrArg Except.error (resolveId_error_eq _ _ _ h3)
    rcases h4 : resolveId db.spttovs30hammertype n4 with e | hid
    · exact congrArg Except.error (resolveId_error_eq _ _ _ h4)
    exfalso
    rcases habs with h | h | h | h
    · rw [resolveId_error_of_not_mem _ _ h] at h1; cases h1
    · rw [resolveId_error_of_not_mem _ _ h] at h2; cases h2
    · rw [resolveId_error_of_not_mem _ _ h] at h3; cases h3
    · rw [resolveId_error_of_not_mem _ _ h] at h4; cases h4
  · intro catalog nm i hnodup hmem
    exact resolveId_ok_of_mem catalog nm i hnodup hmem

/-- C7 witness: an unknown velocity-to-Vs30 name aborts the extraction
on dbA (with the estimate tables emptied), and a known name resolves to
its catalog id. -/
theorem c7_witness :
    all_vs30s_given_correlations lg0 { dbA with cptvs30estimates := [], sptvs30estimates := [] }
        "boore_2003" "andrus_2007_pleistocene" "brandenberg_2010" "Auto" = Except.error "IndexError" ∧
    resolveId dbA.vstovs30correlation "boore_2011" = Except.ok 2 :=
  ⟨c7_unknown_correlation_resolution.1 lg0 dbA "boore_2003" "andrus_2007_pleistocene"
      "brandenberg_2010" "Auto" (Or.inl (by decide)) [] [],
   c7_unknown_correlation_resolution.2 dbA.vstovs30correlation "boore_2011" 2 (by decide) (by decide)⟩

/-- C8.  The depth aggregation yields, for every emitted group, the
minimum of that borehole's depths as shallowest_depth and the maximum as
deepest_depth; a borehole with exactly one measurement at depth d gets
(d, d); and a borehole appearing in the SPT extraction result with zero
measurement rows is kept by the left merge with NaN (null) depth extent
rather than being dropped (the merge output keeps exactly one row per
left row whenever the stats keys are unique, as depthStats keys are). -/
theorem c8_depth_aggregation :
    (∀ (ms : List SptMeasurement) (s : DepthStat), s ∈ depthStats ms →
        (s.shallowest_depth ∈ depthsOfB ms s.borehole_id ∧
         (∀ x ∈ depthsOfB ms s.borehole_id, s.shallowest_depth ≤ x) ∧
         s.deepest_depth ∈ depthsOfB ms s.borehole_id ∧
         (∀ x ∈ depthsOfB ms s.borehole_id, x ≤ s.deepest_depth))) ∧
    (∀ (ms : List SptMeasurement) (b : Int) (d : ℚ), depthsOfB ms b = [d] →
        statFor ms b = some { borehole_id := b, shallowest_depth := d, deepest_depth := d }) ∧
    (∀ (rows : List SptQueryRow) (stats : List DepthStat) (r : SptQueryRow),
        r ∈ rows → stats.filter (fun s => s.borehole_id == r.spt_id) = [] →
        ({ toSptQueryRow := r, shallowest_depth := EF.nan, deepest_depth := EF.nan } : SptMergedRow)
          ∈ leftMergeDepth rows stats) ∧
    (∀ (rows : List SptQueryRow) (stats : List DepthStat),
        (stats.map DepthStat.borehole_id).Nodup →
        (leftMergeDepth rows stats).length = rows.length) := by
  refine ⟨?_, ?_, ?_, fun rows stats h => leftMergeDepth_length rows stats h⟩
  · intro ms s hsmem
    rw [depthStats] at hsmem
    rcases List.mem_filterMap.mp hsmem with ⟨b, _, hsf⟩
    rw [statFor] at hsf
    rcases hdd : depthsOfB ms b with _ | ⟨d0, ds⟩ <;> rw [hdd] at hsf
    · cases hsf
    · cases hsf
      refine ⟨?_, ?_, ?_, ?_⟩
      · show List.foldl min d0 ds ∈ depthsOfB ms b
        rw [hdd]
        exact foldl_min_mem ds d0
      · intro x hx
        show List.foldl min d0 ds ≤ x
        rw [show depthsOfB ms b = d0 :: ds from hdd] at hx
        exact foldl_min_le ds d0 x hx
      · show List.foldl max d0 ds ∈ depthsOfB ms b
        rw [hdd]
        exact foldl_max_mem ds d0
      · intro x hx
        show x ≤ List.foldl max d0 ds
        rw [show depthsOfB ms b = d0 :: ds from hdd] at hx
        exact foldl_max_le ds d0 x hx
  · intro ms b d hdd
    rw [statFor, hdd]
    rfl
  · intro rows stats r hr hfilt
    rw [leftMergeDepth]
    refine List.mem_flatMap.mpr ⟨r, hr, ?_⟩
    rw [hfilt]
    exact List.mem_singleton_self _

/-- C8 witness: a single measurement at depth 5 aggregates to (5, 5),
and a query row on a borehole with no measurements survives the left
merge with null depth extent. -/
theorem c8_witness :
    statFor [{ borehole_id := 123, depth := 5 }] 123
        = some { borehole_id := 123, shallowest_depth := 5, deepest_depth := 5 } ∧
    ({ toSptQueryRow := qRow777, shallowest_depth := EF.nan, deepest_depth := EF.nan } : SptMergedRow)
      ∈ leftMergeDepth [qRow777] [] :=
  ⟨c8_depth_aggregation.2.1 [{ borehole_id := 123, depth := 5 }] 123 5 (by decide),
   c8_depth_aggregation.2.2.1 [qRow777] [] qRow777 (List.mem_singleton_self _) rfl⟩

/-- C9.  The concat column set is exactly the union of the two input
column sets; the unified table is the CPT rows followed by the SPT rows,
with the CPT-only columns (cpt_id, cpt_tip_net_area_ratio) NaN on every
SPT row and the SPT-only columns (spt_efficiency, spt_borehole_diameter)
NaN on every CPT row; type_number_code is assigned from the fixed
enumeration CPT 0, SCPT 1, BH 2, and on dbA the CPT row and the BH row
receive codes 0 and 2. -/
theorem c9_schema_unifier :
    (∀ c : String, c ∈ concatCols ↔ (c ∈ cptDfCols ∨ c ∈ sptDfCols)) ∧
    (∀ (cptRows : List CptDfRow) (sptRows : List SptDfRow),
        unify cptRows sptRows
          = cptRows.map (fun r => setCode (fromCpt r)) ++ sptRows.map (fun r => setCode (fromSpt r))) ∧
    (∀ r : CptDfRow, (setCode (fromCpt r)).spt_efficiency = EF.nan ∧
        (setCode (fromCpt r)).spt_borehole_diameter = EF.nan) ∧
    (∀ r : SptDfRow, (setCode (fromSpt r)).cpt_id = EF.nan ∧
        (setCode (fromSpt r)).cpt_tip_net_area_ratio_v = EF.nan) ∧
    (typeNumberCode "CPT" = EF.fin 0 ∧ typeNumberCode "SCPT" = EF.fin 1 ∧
      typeNumberCode "BH" = EF.fin 2) ∧
    outA.map (fun u => (u.type_prefix_str, u.type_number_code, u.cpt_id,
        u.cpt_tip_net_area_ratio_v, u.spt_efficiency, u.spt_borehole_diameter))
      = [("CPT", EF.fin 0, EF.fin 10, EF.fin 1, EF.nan, EF.nan),
         ("BH", EF.fin 2, EF.nan, EF.nan, EF.fin 70, EF.fin 2)] := by
  refine ⟨fun c => mem_colUnion _ _ c, ?_, fun r => ⟨rfl, rfl⟩, fun r => ⟨rfl, rfl⟩,
    ⟨by decide, by decide, by decide⟩, by decide⟩
  intro cptRows sptRows
  rw [unify, List.map_append, List.map_map, List.map_map]
  rfl

/-- C10.  Every unified output row whose type_prefix is outside the
enumeration CPT, SCPT, BH gets a silently null (NaN) type_number_code:
the dict passed to Series.map has no default and produces NaN for
missing keys, raising nothing. -/
theorem c10_out_of_enum_prefix_null_code (lg : ℚ → ℚ) (db : DB) (n1 n2 n3 n4 : String)
    (out : List UnifiedRow) (u : UnifiedRow)
    (hok : all_vs30s_given_correlations lg db n1 n2 n3 n4 = Except.ok out)
    (hu : u ∈ out) (h1 : u.type_prefix_str ≠ "CPT") (h2 : u.type_prefix_str ≠ "SCPT")
    (h3 : u.type_prefix_str ≠ "BH") :
    u.type_number_code = EF.nan := by
  obtain ⟨vsid, cptid, sptid, hid, _, _, _, _, hout⟩ :=
    all_vs30s_ok_shape lg db n1 n2 n3 n4 out hok
  subst hout
  rw [unify] at hu
  rcases List.mem_map.mp hu with ⟨w, _, hwu⟩
  subst hwu
  have b1 : (w.type_prefix_str == "CPT") = false := beq_eq_false_iff_ne.mpr h1
  have b2 : (w.type_prefix_str == "SCPT") = false := beq_eq_false_iff_ne.mpr h2
  have b3 : (w.type_prefix_str == "BH") = false := beq_eq_false_iff_ne.mpr h3
  show typeNumberCode w.type_prefix_str = EF.nan
  simp [typeNumberCode, b1, b2, b3]

/-- C10 witness: on dbB, whose only record carries the
out-of-enumeration prefix VC, the single output row has a null
type_number_code. -/
theorem c10_witness : (outB.headD uDummy).type_number_code = EF.nan :=
  c10_out_of_enum_prefix_null_code lg0 dbB "boore_2004" "andrus_2007_pleistocene"
    "brandenberg_2010" "Auto" outB (outB.headD uDummy) rfl
    (headD_mem outB uDummy (List.length_pos.mp (by decide))) (by decide) (by decide)
    (by decide)

end Nzgd
